import Mathlib

/-!
Verification development for the ai-buddy study-assistant backend.

The definitions below are shallow embeddings, over `List Char`, of the
string-processing and service-layer code of the repository:

* `backend/utils/text_utils.py`   (class TextProcessor)
* `backend/services/quiz.py`      (QuizService.parse_quiz_questions, check_mcq_answers)
* `backend/services/chat.py`      (ChatService._is_context_too_weak, chat_with_pdf)
* `backend/services/vector.py`    (VectorService.search_pdf_vectors, delete_pdf_vectors)
* `backend/models/saved_quiz.py`  (SavedQuiz.to_dict / from_dict)
* `backend/services/voice_service.py` and
  `frontend/components/voice_interface.py` (voice intent classification)

Python strings are modelled as `List Char`; Python dicts with letter keys as a
four-field record; regular expressions are modelled by small explicit matchers
specialised to the concrete patterns appearing in the source.  All inputs in
the original code are text produced by an LLM or a user, treated here as ASCII
(each regex in the source is used with ASCII character classes only).
-/

set_option maxRecDepth 40000

namespace AiBuddy

/-- Python whitespace as used by `str.strip`, `str.split()` and the regex
class backslash-s (ASCII range). -/
def pyIsSpace (c : Char) : Bool :=
  c = ' ' || c = '\t' || c = '\n' || c = '\r' || c = '\x0b' || c = '\x0c'

/-- Python `str.lower` on ASCII text. -/
def lcList (cs : List Char) : List Char := cs.map Char.toLower

/-- Python `str.strip()` with no argument: drop whitespace at both ends. -/
def pyStrip (cs : List Char) : List Char :=
  ((cs.dropWhile pyIsSpace).reverse.dropWhile pyIsSpace).reverse

/-- Python substring containment `needle in hay`. -/
def containsSub (needle hay : List Char) : Bool :=
  hay.tails.any (fun t => needle.isPrefixOf t)

/-- Helper for `str.split(sep)` with a single-character separator: Python
keeps empty pieces. -/
def splitOnCharAux (sep : Char) : List Char → List Char → List (List Char)
  | [], acc => [acc.reverse]
  | c :: rest, acc =>
    if c = sep then acc.reverse :: splitOnCharAux sep rest []
    else splitOnCharAux sep rest (c :: acc)

/-- Python `text.split(chr)` for one-character separators. -/
def splitOnChar (sep : Char) (cs : List Char) : List (List Char) :=
  splitOnCharAux sep cs []

/-- Python `str.split()` (no argument): split on whitespace runs, dropping
empty pieces. -/
def splitWsAux : List Char → List Char → List (List Char)
  | [], acc => if acc.isEmpty then [] else [acc.reverse]
  | c :: rest, acc =>
    if pyIsSpace c then
      (if acc.isEmpty then splitWsAux rest [] else acc.reverse :: splitWsAux rest [])
    else splitWsAux rest (c :: acc)

def pySplitWs (cs : List Char) : List (List Char) := splitWsAux cs []

/-- Python `str.split(sep)` for a multi-character separator (used for the
blank-line split `content.split` on two newline characters): non-overlapping,
leftmost-first.  The fuel is the input length, which bounds the number of
steps. -/
def splitOnSubAux (sep : List Char) : Nat → List Char → List Char → List (List Char)
  | 0, cs, acc => [acc.reverse ++ cs]
  | fuel + 1, cs, acc =>
    if sep.isPrefixOf cs then
      acc.reverse :: splitOnSubAux sep fuel (cs.drop sep.length) []
    else
      match cs with
      | [] => [acc.reverse]
      | c :: rest => splitOnSubAux sep fuel rest (c :: acc)

def splitOnSub (sep cs : List Char) : List (List Char) :=
  splitOnSubAux sep (cs.length + 1) cs []

/-! ## TextProcessor._parse_single_mcq_block and its helpers
(`backend/utils/text_utils.py`, lines 105-242) -/

/-- The character class `[A-Da-d]` used throughout the answer/option regexes. -/
def isOptLetter (c : Char) : Bool :=
  c = 'A' || c = 'B' || c = 'C' || c = 'D' || c = 'a' || c = 'b' || c = 'c' || c = 'd'

/-- `re.match` of the anchored pattern letter-then-parenthesis-or-dot
(an option line start), source line 158/166. -/
def isOptionLine (line : List Char) : Bool :=
  match line with
  | c :: d :: _ => isOptLetter c && (d = ')' || d = '.')
  | _ => false

/-- Python `line.endswith` applied to the three characters accepted for a
question line (source line 161). -/
def lineEndsQMark (line : List Char) : Bool :=
  match line.getLast? with
  | some c => c = '?' || c = ':' || c = '.'
  | none => false

/-- First filter of `_extract_question_text` (source lines 156-162). -/
def qTextCond1 (line : List Char) : Bool :=
  !isOptionLine line && !containsSub ("Correct Answer:".data) line &&
    !containsSub ("Answer:".data) line && lineEndsQMark line

/-- Fallback filter of `_extract_question_text` (source lines 165-167). -/
def qTextCond2 (line : List Char) : Bool :=
  !isOptionLine line && !containsSub ("Answer:".data) line

/-- `TextProcessor._extract_question_text` (source lines 154-169). -/
def extractQuestionText (lines : List (List Char)) : List Char :=
  match lines.find? qTextCond1 with
  | some l => l
  | none => (lines.find? qTextCond2).getD []

/-- The per-block line list: `block.split` on newline, each line stripped,
empty lines dropped (source line 110). -/
def blockLines (block : List Char) : List (List Char) :=
  ((splitOnChar '\n' block).map pyStrip).filter (fun l => !l.isEmpty)

/-- The options dictionary.  The extraction regex captures only the letters
A-D (after upcasing), so the Python dict can only ever hold these four keys;
we model it as four optional slots. -/
structure MCQOptions where
  optA : Option (List Char)
  optB : Option (List Char)
  optC : Option (List Char)
  optD : Option (List Char)
deriving DecidableEq

def optsGet (o : MCQOptions) (c : Char) : Option (List Char) :=
  if c = 'A' then o.optA
  else if c = 'B' then o.optB
  else if c = 'C' then o.optC
  else if c = 'D' then o.optD
  else none

def optsSet (o : MCQOptions) (c : Char) (v : List Char) : MCQOptions :=
  if c = 'A' then { o with optA := some v }
  else if c = 'B' then { o with optB := some v }
  else if c = 'C' then { o with optC := some v }
  else if c = 'D' then { o with optD := some v }
  else o

/-- `len(options)` on the Python dict. -/
def optsCount (o : MCQOptions) : Nat :=
  (if o.optA.isSome then 1 else 0) + (if o.optB.isSome then 1 else 0) +
    (if o.optC.isSome then 1 else 0) + (if o.optD.isSome then 1 else 0)

/-- One line against the option patterns of `_extract_options` (source lines
176-189).  Both listed patterns are applied with IGNORECASE, so they accept a
letter A-D in either case, a parenthesis or dot, then at least one further
character; the captured text is stripped and the entry is only stored when the
stripped text is non-empty. -/
def matchOptionLine (line : List Char) : Option (Char × List Char) :=
  match line with
  | c :: d :: rest =>
    if isOptLetter c && (d = ')' || d = '.') && !(pyStrip rest).isEmpty then
      some (c.toUpper, pyStrip rest)
    else none
  | _ => none

/-- `TextProcessor._extract_options` (source lines 171-191): later lines with
the same letter overwrite earlier ones, as in the Python dict. -/
def extractOptions (lines : List (List Char)) : MCQOptions :=
  lines.foldl
    (fun o line =>
      match matchOptionLine line with
      | some (c, t) => optsSet o c t
      | none => o)
    ⟨none, none, none, none⟩

/-- The fill loop of `_parse_single_mcq_block` (source lines 125-130): when
fewer than four options were found, each missing letter receives the
placeholder text. -/
def fillOptions (o : MCQOptions) : MCQOptions :=
  if optsCount o < 4 then
    ⟨some (o.optA.getD ("Option A".data)), some (o.optB.getD ("Option B".data)),
      some (o.optC.getD ("Option C".data)), some (o.optD.getD ("Option D".data))⟩
  else o

/-! ## TextProcessor._extract_correct_answer (source lines 193-242)

Strategy 1 uses seven regexes with IGNORECASE and MULTILINE.  Each of them is
a concatenation of case-insensitive literals, whitespace classes and one
captured letter `[A-Da-d]`; we model them by a token list and a direct
matcher.  In every pattern the token following a whitespace class starts with
a non-whitespace character, so maximal-munch matching of the whitespace class
coincides with the backtracking regex semantics. -/

inductive RTok where
  | lit : List Char → RTok
  | wsP : RTok
  | wsS : RTok
  | letter : RTok

/-- Match a token list at the start of `cs`; literals are stored lowercase
and compared case-insensitively.  Returns the captured letter (upcased, as
`group(1).upper()` in the source). -/
def reMatchAt : List RTok → List Char → Option Char → Option Char
  | [], _, acc => acc
  | .lit l :: ts, cs, acc =>
    if lcList (cs.take l.length) = l then reMatchAt ts (cs.drop l.length) acc else none
  | .wsP :: ts, cs, acc =>
    let ws := cs.takeWhile pyIsSpace
    if ws.isEmpty then none else reMatchAt ts (cs.drop ws.length) acc
  | .wsS :: ts, cs, acc => reMatchAt ts (cs.dropWhile pyIsSpace) acc
  | .letter :: ts, cs, acc =>
    match cs with
    | c :: rest => if isOptLetter c then reMatchAt ts rest (some c.toUpper) else none
    | [] => none

/-- `re.search`: leftmost position whose suffix matches. -/
def reSearch (toks : List RTok) (cs : List Char) : Option Char :=
  cs.tails.findSome? (fun suf => reMatchAt toks suf none)

/-- Suffixes of `cs` beginning at line starts, in positional order (for the
one MULTILINE-anchored pattern). -/
def lineStartSuffixesAux : List Char → List (List Char)
  | [] => []
  | c :: rest =>
    if c = '\n' then rest :: lineStartSuffixesAux rest else lineStartSuffixesAux rest

def lineStartSuffixes (cs : List Char) : List (List Char) :=
  cs :: lineStartSuffixesAux cs

/-- `re.search` with MULTILINE for a pattern anchored by a caret. -/
def reSearchAnchored (toks : List RTok) (cs : List Char) : Option Char :=
  (lineStartSuffixes cs).findSome? (fun suf => reMatchAt toks suf none)

/-- The first six answer patterns of strategy 1, in source order (lines
197-204): explicit labels, bold markup. -/
def answerPatterns : List (List RTok) :=
  [[.lit ("correct".data), .wsP, .lit ("answer:".data), .wsS, .letter],
   [.lit ("answer:".data), .wsS, .letter],
   [.lit ("correct:".data), .wsS, .letter],
   [.lit ("the".data), .wsP, .lit ("correct".data), .wsP, .lit ("answer".data), .wsP,
     .lit ("is".data), .wsS, .letter],
   [.lit ("answer".data), .wsS, .lit ("is".data), .wsS, .letter],
   [.lit ("**".data), .letter, .lit ("**".data)]]

/-- The seventh answer pattern (caret, whitespace, letter, whitespace,
"(correct)"), anchored at a line start under MULTILINE. -/
def correctSuffixPattern : List RTok :=
  [.wsS, .letter, .wsS, .lit ("(correct)".data)]

/-- Strategy 1 (source lines 196-212): the patterns are tried in order, each
searched over the whole block. -/
def strategy1 (block : List Char) : Option Char :=
  (answerPatterns.findSome? (fun p => reSearch p block)) <|>
    reSearchAnchored correctSuffixPattern block

/-- Strategy 2 (source lines 214-218): a star adjacent to an upper-case
letter, letters tried in order A, B, C, D. -/
def strategy2 (block : List Char) : Option Char :=
  ['A', 'B', 'C', 'D'].findSome? (fun L =>
    if containsSub ['*', L] block || containsSub [L, '*'] block then some L else none)

/-- Strategy 3 (source lines 220-226): an option line (upper-case start)
containing "(correct)" case-insensitively or a star; lines outer, letters
inner, first hit wins. -/
def strategy3 (lines : List (List Char)) : Option Char :=
  lines.findSome? (fun line =>
    ['A', 'B', 'C', 'D'].findSome? (fun L =>
      if ([L, ')'].isPrefixOf line || [L, '.'].isPrefixOf line) &&
          (containsSub ("(correct)".data) (lcList line) || line.contains '*') then
        some L
      else none))

/-- The emphasis markers of the first strategy-4 pattern; the two-star
alternative is subsumed by the single star for containment, but we keep the
list as in the source. -/
def emphasisNeedles : List (List Char) :=
  [("**".data), ("*".data), ("__".data), ("<b>".data), ("<strong>".data)]

/-- Whether one of the needles occurs, case-insensitively, in the rest of
the current line (the dot of the regex does not cross newlines). -/
def s4lineTest (needles : List (List Char)) (rest : List Char) : Bool :=
  needles.any (fun n => containsSub n (lcList (rest.takeWhile (fun x => !(x = '\n')))))

/-- Match attempt at one position: `([A-D])` (applied with IGNORECASE, the
capture upcased) then a closing parenthesis, with a needle later on the same
line. -/
def s4scanBody (needles : List (List Char)) : List Char → Option Char
  | c :: p :: rest =>
    if isOptLetter c && p = ')' && s4lineTest needles rest then some c.toUpper else none
  | _ => none

/-- Leftmost match wins, as in `re.search`. -/
def s4scan (needles : List (List Char)) (cs : List Char) : Option Char :=
  cs.tails.findSome? (s4scanBody needles)

/-- Strategy 4 (source lines 228-239): emphasis markers after an option
letter, then an "(answer)" marker. -/
def strategy4 (block : List Char) : Option Char :=
  s4scan emphasisNeedles block <|> s4scan [("(answer)".data)] block

/-- `TextProcessor._extract_correct_answer` (source lines 193-242): the four
strategies in order, first success wins, `None` when all fail. -/
def extractCorrectAnswer (block : List Char) (lines : List (List Char)) : Option Char :=
  strategy1 block <|> strategy2 block <|> strategy3 lines <|> strategy4 block

/-- The validation step of `_parse_single_mcq_block` (source lines 136-138):
a missing answer, or a captured letter outside A-D, defaults to the letter A. -/
def answerOrDefault (o : Option Char) : Char :=
  match o with
  | some c => if c = 'A' || c = 'B' || c = 'C' || c = 'D' then c else 'A'
  | none => 'A'

/-- A parsed MCQ question record (the dict built at source lines 140-145). -/
structure MCQQuestion where
  number : Nat
  question : List Char
  options : MCQOptions
  correct_answer : Char
deriving DecidableEq

/-- `TextProcessor._parse_single_mcq_block` (source lines 105-152).  The only
failure is an empty question text; a missing or invalid correct answer is
defaulted, never fatal. -/
def parseSingleMcqBlock (n : Nat) (block : List Char) : Option MCQQuestion :=
  let lines := blockLines block
  let qtext := extractQuestionText lines
  if qtext.isEmpty then none
  else
    some ⟨n, qtext, fillOptions (extractOptions lines),
      answerOrDefault (extractCorrectAnswer block lines)⟩

/-! ## TextProcessor._split_into_question_blocks (source lines 64-103)

The two `re.findall` patterns have the shape marker, whitespace, lazy capture
up to the next marker or the end of the string.  A marker never starts with a
whitespace character, so the greedy whitespace class before the capture never
hides a marker; the `(?=...|$)` lookahead is modelled by cutting the capture
at the first position where the marker matches (or the end — the
dollar-before-final-newline subtlety of Python is absorbed by the `strip()`
applied to every capture). -/

/-- Marker of pattern 1, `Question`, whitespace, digits, colon, with
IGNORECASE; returns the matched length. -/
def markerQ (cs : List Char) : Option Nat :=
  if lcList (cs.take 8) = ("question".data) then
    let r1 := cs.drop 8
    let ws := r1.takeWhile pyIsSpace
    if ws.isEmpty then none
    else
      let r2 := r1.drop ws.length
      let ds := r2.takeWhile Char.isDigit
      if ds.isEmpty then none
      else
        match r2.drop ds.length with
        | ':' :: _ => some (8 + ws.length + ds.length + 1)
        | _ => none
  else none

/-- Marker of pattern 2: digits then a dot or closing parenthesis. -/
def markerN (cs : List Char) : Option Nat :=
  let ds := cs.takeWhile Char.isDigit
  if ds.isEmpty then none
  else
    match cs.drop ds.length with
    | c :: _ => if c = '.' || c = ')' then some (ds.length + 1) else none
    | [] => none

/-- Index and length of the leftmost marker occurrence. -/
def findMarkerStart (marker : List Char → Option Nat) (cs : List Char) : Option (Nat × Nat) :=
  cs.tails.enum.findSome? (fun p => (marker p.2).map (fun len => (p.1, len)))

/-- Length of the lazy capture: everything before the next marker position,
or the whole rest. -/
def captureLen (marker : List Char → Option Nat) (cs : List Char) : Nat :=
  match findMarkerStart marker cs with
  | some (i, _) => i
  | none => cs.length

/-- The `findall` loop, entered at a marker position: consume the marker,
skip whitespace, capture up to the next marker, strip, continue.  Each round
consumes at least the marker (length at least two), so the input length plus
one is enough fuel. -/
def splitByMarkersLoop (marker : List Char → Option Nat) : Nat → List Char → List (List Char)
  | 0, _ => []
  | fuel + 1, cs =>
    match marker cs with
    | none => []
    | some mlen =>
      let body := (cs.drop mlen).dropWhile pyIsSpace
      let cap := captureLen marker body
      pyStrip (body.take cap) :: splitByMarkersLoop marker fuel (body.drop cap)

/-- `re.findall` for the two marker patterns: text before the first marker is
skipped, then the loop above produces the stripped capture groups. -/
def splitByMarkers (marker : List Char → Option Nat) (cs : List Char) : List (List Char) :=
  match findMarkerStart marker cs with
  | none => []
  | some (i, _) => splitByMarkersLoop marker (cs.length + 1) (cs.drop i)

/-- Pattern 3 (source lines 83-96): split on the two-character separator of a
blank line, strip, drop empties, keep blocks that look like an MCQ. -/
def splitDoubleNl (content : List Char) : List (List Char) :=
  let blocks := ((splitOnSub ('\n' :: ['\n']) content).map pyStrip).filter (fun b => !b.isEmpty)
  blocks.filter (fun b =>
    (containsSub ("A)".data) b || containsSub ("a)".data) b) &&
      (containsSub ("B)".data) b || containsSub ("b)".data) b) &&
      (b.contains '?' || b.contains ':'))

/-- `TextProcessor._split_into_question_blocks` (source lines 64-103): the
three strategies in priority order, first non-empty result wins. -/
def splitIntoQuestionBlocks (content : List Char) : List (List Char) :=
  let b1 := splitByMarkers markerQ content
  if !b1.isEmpty then b1
  else
    let b2 := splitByMarkers markerN content
    if !b2.isEmpty then b2
    else splitDoubleNl content

/-- `TextProcessor.parse_mcq_questions` (source lines 27-62): blocks are
numbered by their position starting at one (`enumerate(blocks, 1)`), blocks
that fail to parse are dropped. -/
def parseMcqQuestions (content : List Char) : List MCQQuestion :=
  (splitIntoQuestionBlocks content).enum.filterMap
    (fun p => parseSingleMcqBlock (p.1 + 1) p.2)

/-- The error message of `QuizService.parse_quiz_questions`. -/
def noValidMsg : List Char := "No valid questions could be parsed".data

/-- `QuizService.parse_quiz_questions` for the MCQ quiz type
(`backend/services/quiz.py`, lines 311-330). -/
def parseQuizQuestionsMCQ (content : List Char) : Except (List Char) (List MCQQuestion) :=
  let questions := parseMcqQuestions content
  if questions.isEmpty then .error noValidMsg
  else .ok questions

/-! ## Answer checking
(`backend/utils/text_utils.py` lines 273-315 and `backend/services/quiz.py`
lines 332-360).  Python float percentages are idealised as rationals; the
`round(x, 1)` builtin is round-half-to-even on the first decimal. -/

/-- Round-half-to-even to an integer. -/
def rhe (x : ℚ) : ℤ :=
  let f := ⌊x⌋
  let r := x - (f : ℚ)
  if r < 1 / 2 then f
  else if 1 / 2 < r then f + 1
  else if f % 2 = 0 then f else f + 1

/-- Python `round(x, 1)`. -/
def roundTo1 (x : ℚ) : ℚ := (rhe (x * 10) : ℚ) / 10

/-- `user_answers.get(q_num)` on the answer dict, modelled as an association
list with unique keys. -/
def lookupAns (ua : List (Nat × Char)) (n : Nat) : Option Char :=
  (ua.find? (fun p => p.1 == n)).map (fun p => p.2)

/-- The comparison inside both checking loops:
`user_answers.get(q_num) == question[correct_answer]`; an absent key gives
`None`, which never equals a letter. -/
def answeredCorrect (ua : List (Nat × Char)) (q : MCQQuestion) : Bool :=
  lookupAns ua q.number == some q.correct_answer

/-- The banded message of `TextProcessor.check_mcq_answers` (source lines
289-303), selected on the unrounded percentage. -/
def bandMessage (p : ℚ) : List Char :=
  if 90 ≤ p then ("Excellent work!".data)
  else if 80 ≤ p then ("Great job!".data)
  else if 70 ≤ p then ("Good effort!".data)
  else if 60 ≤ p then ("Not bad!".data)
  else ("Keep studying!".data)

/-- The quantities interpolated into the feedback string built by
`TextProcessor.check_mcq_answers` (score line and banded message). -/
structure Feedback where
  correct : Nat
  total : Nat
  percentage : ℚ
  message : List Char
deriving DecidableEq

/-- `TextProcessor.check_mcq_answers` (source lines 273-315): empty inputs
short-circuit to the "No answers to check." reply. -/
def checkMcqAnswersTU (ua : List (Nat × Char)) (questions : List MCQQuestion) :
    Except (List Char) Feedback :=
  if ua.isEmpty || questions.isEmpty then .error ("No answers to check.".data)
  else
    let correct := questions.countP (answeredCorrect ua)
    let total := questions.length
    let pct : ℚ := (correct : ℚ) / (total : ℚ) * 100
    .ok ⟨correct, total, pct, bandMessage pct⟩

/-- The `score_data` dict of `QuizService.check_mcq_answers` (source lines
347-353). -/
structure ScoreData where
  correct_count : Nat
  total_questions : Nat
  percentage : ℚ
  feedback : Except (List Char) Feedback

/-- `QuizService.check_mcq_answers` (source lines 332-360): an empty answer
dict is rejected up front; with an empty question list the percentage
division raises and the handler reports a generic failure. -/
def quizCheckMcqAnswers (questions : List MCQQuestion) (ua : List (Nat × Char)) :
    Except (List Char) ScoreData :=
  if ua.isEmpty then .error ("Please answer at least one question".data)
  else if questions.isEmpty then .error ("Failed to check answers".data)
  else
    let correct := questions.countP (answeredCorrect ua)
    let total := questions.length
    .ok ⟨correct, total, roundTo1 ((correct : ℚ) / (total : ℚ) * 100),
      checkMcqAnswersTU ua questions⟩

/-! ## ChatService: weak-context heuristic and chat_with_pdf
(`backend/services/chat.py`, lines 32-121). -/

/-- The fixed stop-word list of `_is_context_too_weak` (source line 43). -/
def commonWords : List (List Char) :=
  [("the".data), ("a".data), ("an".data), ("and".data), ("or".data), ("but".data),
   ("in".data), ("on".data), ("at".data), ("to".data), ("for".data), ("of".data),
   ("with".data), ("by".data)]

/-- The question-word set: lower-cased, whitespace-split, stop words removed
(source lines 39-44). -/
def questionWords (question : List Char) : List (List Char) :=
  (pySplitWs (lcList question)).filter (fun w => !commonWords.contains w)

/-- `ChatService._is_context_too_weak` (source lines 32-51).  Note that the
50-character test is applied to the stripped context, while the 200-character
test uses the raw length. -/
def isContextTooWeak (question context : List Char) : Bool :=
  if (pyStrip context).length < 50 then true
  else if !((questionWords question).any
        (fun w => decide (w ∈ pySplitWs (lcList context)))) && context.length < 200 then
    true
  else false

/-- Removal of one lazy tag span pattern, as `re.sub` with DOTALL: at the
leftmost opening tag that is followed by a closing tag, drop everything up to
the nearest closing tag and continue after it (matches are non-overlapping
and scanning resumes after the replacement). -/
def findSubIdx (needle hay : List Char) : Option Nat :=
  (hay.tails.enum.find? (fun p => needle.isPrefixOf p.2)).map (fun p => p.1)

def stripTagAux (openT closeT : List Char) : Nat → List Char → List Char
  | 0, cs => cs
  | fuel + 1, cs =>
    match findSubIdx openT cs with
    | none => cs
    | some i =>
      let rest := cs.drop (i + openT.length)
      match findSubIdx closeT rest with
      | none => cs
      | some j => cs.take i ++ stripTagAux openT closeT fuel (rest.drop (j + closeT.length))

def stripTagSpans (openT closeT cs : List Char) : List Char :=
  stripTagAux openT closeT cs.length cs

/-- Replacement of three-or-longer newline runs by a double newline
(`re.sub` of the newline-run pattern, source line 22). -/
def emitNl (run : Nat) : List Char :=
  if 3 ≤ run then ['\n', '\n'] else List.replicate run '\n'

def squeezeNlAux : List Char → Nat → List Char
  | [], run => emitNl run
  | c :: rest, run =>
    if c = '\n' then squeezeNlAux rest (run + 1)
    else emitNl run ++ c :: squeezeNlAux rest 0

def squeezeNewlines (cs : List Char) : List Char := squeezeNlAux cs 0

/-- Replacement of space-or-tab runs by a single space (source line 23). -/
def squeezeSpAux : List Char → Bool → List Char
  | [], _ => []
  | c :: rest, inRun =>
    if c = ' ' || c = '\t' then
      if inRun then squeezeSpAux rest true else ' ' :: squeezeSpAux rest true
    else c :: squeezeSpAux rest false

def squeezeSpaces (cs : List Char) : List Char := squeezeSpAux cs false

/-- `TextProcessor.clean_ai_output` (source lines 12-25). -/
def cleanAiOutput (text : List Char) : List Char :=
  if text.isEmpty then []
  else
    pyStrip (squeezeSpaces (squeezeNewlines
      (stripTagSpans ("<thinking>".data) ("</thinking>".data)
        (stripTagSpans ("<think>".data) ("</think>".data) text))))

/-- One formatted search result (`vector.py` lines 90-96). -/
structure SearchResult where
  content : List Char
  metadata : List (List Char × List Char)
  score : ℚ
deriving DecidableEq

/-- Python `"\n\n".join(items)`. -/
def joinSep (sep : List Char) : List (List Char) → List Char
  | [] => []
  | [x] => x
  | x :: y :: rest => x ++ sep ++ joinSep sep (y :: rest)

/-- The environment of one `chat_with_pdf` call: model availability, the PDF
lookup, the outcome of the vector search, and the three mode-specific
generation helpers (each of which invokes the language model once and returns
the stringified result, or the empty string on an internal error). -/
structure ChatEnv where
  modelAvailable : Bool
  pdfFound : Bool
  pdfProcessed : Bool
  searchOutcome : Except (List Char) (List SearchResult)
  genQuizFeedback : List Char → Option (List Char) → List Char
  genTutor : List Char → Option (List Char) → List Char
  genExplain : List Char → List Char

/-- The data part of a successful `chat_with_pdf` response. -/
structure ChatData where
  response : List Char
  mode : List Char
  context_used : Nat
deriving DecidableEq

/-- The canned low-information reply of `chat_with_pdf` (source line 87). -/
def cannedWeakResponse : List Char :=
  ("I couldn".data) ++ Char.ofNat 39 ::
    ("t find enough relevant information in the document to answer your question thoroughly. The document may not cover this specific topic in detail.".data)

/-- The caveat prefixed to answers built from under-100-character context
(source line 108). -/
def shortContextWarning : List Char :=
  ("⚠️ The document may not fully cover this topic.\n\n".data)

/-- `ChatService.chat_with_pdf` (source lines 53-121), returning the service
response together with the number of language-model invocations performed. -/
def chatWithPdf (env : ChatEnv) (question mode : List Char)
    (quizContext : Option (List Char)) :
    Except (List Char) ChatData × Nat :=
  if !env.modelAvailable then (.error ("AI model not available".data), 0)
  else if !env.pdfFound then (.error ("PDF not found".data), 0)
  else if !env.pdfProcessed then (.error ("PDF is still being processed".data), 0)
  else
    match env.searchOutcome with
    | .error _ => (.error ("No relevant information found in the PDF".data), 0)
    | .ok results =>
      if results.isEmpty then (.error ("No relevant information found in the PDF".data), 0)
      else
        let context := joinSep ('\n' :: ['\n']) (results.map (fun r => r.content))
        if isContextTooWeak question context then
          (.ok ⟨cannedWeakResponse, mode, 0⟩, 0)
        else
          let response :=
            if mode = ("Quiz Me".data) then env.genQuizFeedback question quizContext
            else if mode = ("Tutor".data) then env.genTutor question quizContext
            else env.genExplain question
          if response.isEmpty then (.error ("Failed to generate response".data), 1)
          else
            let clean := cleanAiOutput response
            let clean2 := if context.length < 100 then shortContextWarning ++ clean else clean
            (.ok ⟨clean2, mode, results.length⟩, 1)

/-! ## VectorService (`backend/services/vector.py`)

The on-disk FAISS layout is one directory per (user id, pdf id) pair; we
model the filesystem as a partial map from such pairs to the stored FAISS
database, itself opaque apart from `similarity_search`, which is passed in as
an abstract function `sim`. -/

/-- A stored document inside a FAISS database. -/
structure VDoc where
  page_content : List Char
  metadata : List (List Char × List Char)
deriving DecidableEq

/-- The persisted per-(user, pdf) vector indexes; `none` models a path for
which `os.path.exists` is false. -/
def VectorState : Type := (List Char × List Char) → Option (List VDoc)

/-- `VectorService.search_pdf_vectors` (source lines 66-103): a missing index
is the distinct re-upload error; otherwise each hit is formatted with the
constant score 1.0. -/
def searchPdfVectors (sim : List VDoc → List Char → Nat → List VDoc)
    (st : VectorState) (userId pdfId query : List Char) (nResults : Nat) :
    Except (List Char) (List SearchResult) :=
  match st (userId, pdfId) with
  | none => .error ("Vector database not found. Please re-upload the PDF.".data)
  | some db => .ok ((sim db query nResults).map (fun d => ⟨d.page_content, d.metadata, 1⟩))

/-- `VectorService.delete_pdf_vectors` (source lines 105-120): the directory
is removed when present (`ignore_errors=True`), only logged when absent, and
the response is a success either way. -/
def deletePdfVectors (st : VectorState) (userId pdfId : List Char) :
    Except (List Char) (List Char) × VectorState :=
  (.ok ("PDF vectors deleted successfully".data),
    fun k => if k = (userId, pdfId) then none else st k)

/-! ## SavedQuiz (`backend/models/saved_quiz.py`)

The questions payload is passed through `to_dict`/`from_dict` untouched, so
it is modelled by an arbitrary type `α`; database documents are association
lists over a tagged value type, timestamps are opaque naturals. -/

inductive DVal (α : Type) where
  | str : List Char → DVal α
  | qd : α → DVal α
  | time : Nat → DVal α
  | null : DVal α

structure SavedQuiz (α : Type) where
  user_id : List Char
  folder_id : List Char
  pdf_id : List Char
  pdf_name : List Char
  quiz_name : List Char
  quiz_type : List Char
  difficulty : List Char
  questions_data : α
  topic_focus : Option (List Char)
  created_at : Nat
  updated_at : Nat

/-- `SavedQuiz.to_dict` (source lines 25-39); a `None` topic focus is stored
as an explicit null value. -/
def toDict {α : Type} (q : SavedQuiz α) : List (List Char × DVal α) :=
  [(("user_id".data), .str q.user_id),
   (("folder_id".data), .str q.folder_id),
   (("pdf_id".data), .str q.pdf_id),
   (("pdf_name".data), .str q.pdf_name),
   (("quiz_name".data), .str q.quiz_name),
   (("quiz_type".data), .str q.quiz_type),
   (("difficulty".data), .str q.difficulty),
   (("questions_data".data), .qd q.questions_data),
   (("topic_focus".data), match q.topic_focus with
     | some s => .str s
     | none => .null),
   (("created_at".data), .time q.created_at),
   (("updated_at".data), .time q.updated_at)]

/-- `data[key]` / `data.get(key)` on a document. -/
def dget {α : Type} (d : List (List Char × DVal α)) (k : List Char) : Option (DVal α) :=
  (d.find? (fun p => p.1 == k)).map (fun p => p.2)

def asStr {α : Type} : Option (DVal α) → Option (List Char)
  | some (.str v) => some v
  | _ => none

def asQd {α : Type} : Option (DVal α) → Option α
  | some (.qd v) => some v
  | _ => none

/-- `SavedQuiz.from_dict` (source lines 41-57).  The required keys are read
with bracket access (a missing or ill-typed key fails the call); the topic
focus uses `get` (absent or null gives `None`); the timestamps use `get` with
a fresh now as default, then overwrite the constructor-assigned values. -/
def fromDict {α : Type} (now : Nat) (d : List (List Char × DVal α)) : Option (SavedQuiz α) := do
  let u ← asStr (dget d ("user_id".data))
  let fo ← asStr (dget d ("folder_id".data))
  let pi ← asStr (dget d ("pdf_id".data))
  let pn ← asStr (dget d ("pdf_name".data))
  let qn ← asStr (dget d ("quiz_name".data))
  let qt ← asStr (dget d ("quiz_type".data))
  let df ← asStr (dget d ("difficulty".data))
  let qd ← asQd (dget d ("questions_data".data))
  some
    { user_id := u, folder_id := fo, pdf_id := pi, pdf_name := pn,
      quiz_name := qn, quiz_type := qt, difficulty := df, questions_data := qd,
      topic_focus :=
        (match dget d ("topic_focus".data) with
          | some (.str v) => some v
          | _ => none),
      created_at :=
        (match dget d ("created_at".data) with
          | some (.time t) => t
          | _ => now),
      updated_at :=
        (match dget d ("updated_at".data) with
          | some (.time t) => t
          | _ => now) }

/-! ## Voice intent classification

`frontend/components/voice_interface.py` lines 367-387 give the four-way
classifier (plain substring membership on the lower-cased utterance);
`backend/services/voice_service.py` lines 342-363 give the regex-based
direct-answer detector used by `get_voice_response` (lines 83-117) to choose
between the hint-only and the normal voice prompt. -/

inductive VoiceIntent where
  | direct_answer_request
  | concept_explanation
  | help_request
  | general
deriving DecidableEq

def directPatterns : List (List Char) :=
  [("what is the answer".data), ("which option".data), ("is it a".data), ("is it b".data),
   ("tell me the answer".data), ("correct answer".data)]

def conceptPatterns : List (List Char) :=
  [("explain".data), ("what does".data), ("what is".data), ("how does".data),
   ("why is".data), ("define".data), ("what means".data)]

def helpPatterns : List (List Char) :=
  [("help".data), ("stuck".data), ("don".data) ++ Char.ofNat 39 :: ("t understand".data),
   ("confused".data), ("how to solve".data), ("hint".data), ("guide me".data)]

/-- `_classify_voice_question` (voice_interface.py, lines 367-387). -/
def classifyVoiceQuestion (userText : List Char) : VoiceIntent :=
  let lt := lcList userText
  if directPatterns.any (fun p => containsSub p lt) then .direct_answer_request
  else if conceptPatterns.any (fun p => containsSub p lt) then .concept_explanation
  else if helpPatterns.any (fun p => containsSub p lt) then .help_request
  else .general

/-- Tokens of the direct-answer regexes: case-sensitive literals (the input
is pre-lowered, as in the source), a whitespace class, the `[a-d]` class, and
the dot-star wildcard (which does not cross newlines). -/
inductive VTok where
  | lit : List Char → VTok
  | wsP : VTok
  | cls : List Char → VTok
  | anyS : VTok

/-- Matcher for a token list at the start of the text.  In every pattern a
whitespace class is followed by a non-whitespace token, so maximal munch
agrees with the regex; the wildcard is resolved by trying every split.  Each
step shortens the token list or the text, so the sum of their lengths plus
one is sufficient fuel. -/
def vMatchF : Nat → List VTok → List Char → Bool
  | 0, _, _ => false
  | _ + 1, [], _ => true
  | fuel + 1, .lit l :: ts, cs => l.isPrefixOf cs && vMatchF fuel ts (cs.drop l.length)
  | fuel + 1, .wsP :: ts, cs =>
    let ws := cs.takeWhile pyIsSpace
    !ws.isEmpty && vMatchF fuel ts (cs.drop ws.length)
  | fuel + 1, .cls l :: ts, cs =>
    match cs with
    | c :: rest => l.contains c && vMatchF fuel ts rest
    | [] => false
  | fuel + 1, .anyS :: ts, cs =>
    vMatchF fuel ts cs ||
      (match cs with
       | c :: rest => !(c = '\n') && vMatchF fuel (.anyS :: ts) rest
       | [] => false)

def vMatch (toks : List VTok) (cs : List Char) : Bool :=
  vMatchF (toks.length + cs.length + 1) toks cs

/-- Python word characters (ASCII). -/
def isWordChar (c : Char) : Bool := c.isAlphanum || c = '_'

def isWordOpt : Option Char → Bool
  | some c => isWordChar c
  | none => false

/-- `re.search` for a pattern starting with a word boundary: try every
position whose previous character differs in wordness from the current one.
Every pattern begins with a word character, so a match can never start at the
end of the text. -/
def vSearchWB (toks : List VTok) : Option Char → List Char → Bool
  | _, [] => false
  | prev, c :: rest =>
    ((isWordOpt prev != isWordChar c) && vMatch toks (c :: rest)) ||
      vSearchWB toks (some c) rest

/-- The ten regexes of `_is_asking_for_direct_answer` (voice_service.py,
lines 346-357), each beginning with a word boundary. -/
def voicePatterns : List (List VTok) :=
  [[.lit ("is".data), .wsP, .cls ['a', 'b', 'c', 'd'], .wsP, .lit ("correct".data)],
   [.lit ("what".data), .anyS, .lit ("answer".data)],
   [.lit ("which".data), .anyS, .lit ("correct".data)],
   [.lit ("what".data), .anyS, .lit ("right".data)],
   [.lit ("tell me".data), .anyS, .lit ("answer".data)],
   [.lit ("what".data), .anyS, .lit ("letter".data)],
   [.lit ("should i choose".data)],
   [.lit ("give me".data), .anyS, .lit ("answer".data)],
   [.lit ("whats".data), .anyS, .lit ("answer".data)],
   [.lit ("what is".data), .anyS, .lit ("answer".data)]]

/-- `VoiceService._is_asking_for_direct_answer` (source lines 342-363). -/
def isAskingForDirectAnswer (userText : List Char) : Bool :=
  let lt := lcList userText
  voicePatterns.any (fun p => vSearchWB p none lt)

/-- The two voice prompt variants built in `get_voice_response` (source lines
86-117). -/
inductive VoicePrompt where
  | hintOnly
  | normal
deriving DecidableEq

/-- The prompt selection of `VoiceService.get_voice_response` (source line
86): the hint-only variant is used exactly for a detected direct-answer
request while the quiz is not completed. -/
def selectVoicePrompt (userText : List Char) (quizCompleted : Bool) : VoicePrompt :=
  if isAskingForDirectAnswer userText && !quizCompleted then .hintOnly else .normal

/-! ## Theorems -/

/-- C8: for every `SavedQuiz` value `q`, `from_dict (to_dict q)` reproduces
every field of `q` — user_id, folder_id, pdf_id, pdf_name, quiz_name,
quiz_type, difficulty, questions_data, topic_focus (including when it is
`None`), created_at and updated_at. -/
theorem saved_quiz_roundtrip {α : Type} (q : SavedQuiz α) (now : Nat) :
    fromDict now (toDict q) = some q := by
  rcases q with ⟨u, fo, pi, pn, qn, qt, df, qd, tf, ca, ua⟩
  cases tf <;> rfl

/-- C10: every entry of a successful vector search result has score exactly
1.0, independent of the query, the stored chunks and the similarity
function — the score carries no similarity information. -/
theorem search_score_constant
    (sim : List VDoc → List Char → Nat → List VDoc) (st : VectorState)
    (userId pdfId query : List Char) (nResults : Nat)
    (results : List SearchResult)
    (h : searchPdfVectors sim st userId pdfId query nResults = .ok results) :
    ∀ r ∈ results, r.score = 1 := by
  intro r hr
  unfold searchPdfVectors at h
  cases hst : st (userId, pdfId) with
  | none => rw [hst] at h; exact absurd h (by simp)
  | some db =>
    rw [hst] at h
    simp only [Except.ok.injEq] at h
    subst h
    simp only [List.mem_map] at hr
    obtain ⟨d, -, rfl⟩ := hr
    rfl

/-- Witness for C10 at a concrete store and similarity function. -/
theorem search_score_constant_witness :
    searchPdfVectors (fun db _ _ => db) (fun _ => some [⟨("chunk text".data), []⟩])
        ("u1".data) ("p1".data) ("query".data) 5 =
      .ok [⟨("chunk text".data), [], 1⟩] ∧
    ∀ r ∈ [(⟨("chunk text".data), [], 1⟩ : SearchResult)], r.score = 1 :=
  ⟨rfl,
    search_score_constant (fun db _ _ => db) (fun _ => some [⟨("chunk text".data), []⟩])
      ("u1".data) ("p1".data) ("query".data) 5 _ rfl⟩

/-- C7: deleting a per-document vector index reports success whether or not
the index exists; a search on a missing index — in particular any search
after a delete of the same (user, pdf) pair — returns the distinct
"not found, re-upload" error rather than an empty result list. -/
theorem vector_delete_idempotent_search_missing
    (sim : List VDoc → List Char → Nat → List VDoc) (st : VectorState)
    (userId pdfId query : List Char) (nResults : Nat) :
    (deletePdfVectors st userId pdfId).1 = .ok ("PDF vectors deleted successfully".data)
    ∧ (st (userId, pdfId) = none →
        searchPdfVectors sim st userId pdfId query nResults =
          .error ("Vector database not found. Please re-upload the PDF.".data))
    ∧ searchPdfVectors sim (deletePdfVectors st userId pdfId).2 userId pdfId query nResults =
        .error ("Vector database not found. Please re-upload the PDF.".data) := by
  refine ⟨rfl, ?_, ?_⟩
  · intro h
    unfold searchPdfVectors
    rw [h]
  · unfold searchPdfVectors deletePdfVectors
    simp

/-- Witness for C7: a store where the index is present, then deleted; and a
store where it was never present. -/
theorem vector_delete_idempotent_search_missing_witness :
    ((fun _ => none : VectorState) (("u1".data), ("p1".data)) = none ∧
      searchPdfVectors (fun db _ _ => db) (fun _ => none) ("u1".data) ("p1".data)
          ("q".data) 5 =
        .error ("Vector database not found. Please re-upload the PDF.".data)) ∧
    searchPdfVectors (fun db _ _ => db)
        (deletePdfVectors (fun _ => some [⟨("c".data), []⟩]) ("u1".data) ("p1".data)).2
        ("u1".data) ("p1".data) ("q".data) 5 =
      .error ("Vector database not found. Please re-upload the PDF.".data) :=
  ⟨⟨rfl,
    (vector_delete_idempotent_search_missing (fun db _ _ => db) (fun _ => none)
      ("u1".data) ("p1".data) ("q".data) 5).2.1 rfl⟩,
   (vector_delete_idempotent_search_missing (fun db _ _ => db)
      (fun _ => some [⟨("c".data), []⟩]) ("u1".data) ("p1".data) ("q".data) 5).2.2⟩

/-- C9: the voice intent classifier buckets every utterance into one of the
four intents by ordered membership tests — direct-answer patterns first, then
concept patterns, then help patterns, first match wins, else general — and a
detected direct-answer request while the quiz is incomplete selects the
hint-only voice prompt variant. -/
theorem voice_intent_classification (u : List Char) :
    (classifyVoiceQuestion u = .direct_answer_request ↔
      directPatterns.any (fun p => containsSub p (lcList u)) = true)
    ∧ (classifyVoiceQuestion u = .concept_explanation ↔
        (directPatterns.any (fun p => containsSub p (lcList u)) = false ∧
          conceptPatterns.any (fun p => containsSub p (lcList u)) = true))
    ∧ (classifyVoiceQuestion u = .help_request ↔
        (directPatterns.any (fun p => containsSub p (lcList u)) = false ∧
          conceptPatterns.any (fun p => containsSub p (lcList u)) = false ∧
          helpPatterns.any (fun p => containsSub p (lcList u)) = true))
    ∧ (classifyVoiceQuestion u = .general ↔
        (directPatterns.any (fun p => containsSub p (lcList u)) = false ∧
          conceptPatterns.any (fun p => containsSub p (lcList u)) = false ∧
          helpPatterns.any (fun p => containsSub p (lcList u)) = false))
    ∧ (∀ quizCompleted : Bool, isAskingForDirectAnswer u = true → quizCompleted = false →
        selectVoicePrompt u quizCompleted = .hintOnly) := by
  refine ⟨?_, ?_, ?_, ?_, ?_⟩ <;>
    first
    | · cases hd : directPatterns.any (fun p => containsSub p (lcList u)) <;>
          cases hc : conceptPatterns.any (fun p => containsSub p (lcList u)) <;>
            cases hh : helpPatterns.any (fun p => containsSub p (lcList u)) <;>
              simp [classifyVoiceQuestion, hd, hc, hh]
    | · intro qc h hqc
        subst hqc
        simp [selectVoicePrompt, h]

/-- Witness for C9: a verbatim direct-answer request during an incomplete
quiz receives the hint-only prompt, and is classified as a direct-answer
request. -/
theorem voice_intent_classification_witness :
    isAskingForDirectAnswer ("what is the answer".data) = true ∧
    selectVoicePrompt ("what is the answer".data) false = .hintOnly ∧
    classifyVoiceQuestion ("what is the answer".data) = .direct_answer_request :=
  ⟨by decide,
   (voice_intent_classification (("what is the answer".data))).2.2.2.2 false (by decide) rfl,
   (voice_intent_classification (("what is the answer".data))).1.mpr (by decide)⟩

/-- A five-question quiz used for the concrete scoring example. -/
def exQuiz5 : List MCQQuestion :=
  [⟨1, ("Q1?".data), ⟨some ("w".data), some ("x".data), some ("y".data), some ("z".data)⟩, 'A'⟩,
   ⟨2, ("Q2?".data), ⟨some ("w".data), some ("x".data), some ("y".data), some ("z".data)⟩, 'B'⟩,
   ⟨3, ("Q3?".data), ⟨some ("w".data), some ("x".data), some ("y".data), some ("z".data)⟩, 'C'⟩,
   ⟨4, ("Q4?".data), ⟨some ("w".data), some ("x".data), some ("y".data), some ("z".data)⟩, 'D'⟩,
   ⟨5, ("Q5?".data), ⟨some ("w".data), some ("x".data), some ("y".data), some ("z".data)⟩, 'A'⟩]

/-- Answers hitting questions 1-3 and missing questions 4 and 5. -/
def exAns5 : List (Nat × Char) := [(1, 'A'), (2, 'B'), (3, 'C'), (4, 'A'), (5, 'B')]

/-- C5: with a non-empty question list and a non-empty answer map the
checker returns a percentage equal to correct/total times 100 rounded to one
decimal, together with the banded feedback message with thresholds at 90, 80,
70 and 60 percent and their five distinct canned messages; in particular 3
correct answers out of 5 questions yield a percentage of 60.0 and the
"Not bad!" band. -/
theorem answer_checker_scoring (qs : List MCQQuestion) (ua : List (Nat × Char))
    (hq : qs ≠ []) (ha : ua ≠ []) :
    (∃ sd : ScoreData,
      quizCheckMcqAnswers qs ua = .ok sd ∧
      sd.correct_count = qs.countP (answeredCorrect ua) ∧
      sd.total_questions = qs.length ∧
      sd.percentage =
        roundTo1 ((qs.countP (answeredCorrect ua) : ℚ) / (qs.length : ℚ) * 100) ∧
      sd.feedback =
        .ok ⟨qs.countP (answeredCorrect ua), qs.length,
          (qs.countP (answeredCorrect ua) : ℚ) / (qs.length : ℚ) * 100,
          bandMessage ((qs.countP (answeredCorrect ua) : ℚ) / (qs.length : ℚ) * 100)⟩)
    ∧ (∀ p : ℚ, 90 ≤ p → bandMessage p = ("Excellent work!".data))
    ∧ (∀ p : ℚ, 80 ≤ p → p < 90 → bandMessage p = ("Great job!".data))
    ∧ (∀ p : ℚ, 70 ≤ p → p < 80 → bandMessage p = ("Good effort!".data))
    ∧ (∀ p : ℚ, 60 ≤ p → p < 70 → bandMessage p = ("Not bad!".data))
    ∧ (∀ p : ℚ, p < 60 → bandMessage p = ("Keep studying!".data))
    ∧ (∃ sd : ScoreData,
        quizCheckMcqAnswers exQuiz5 exAns5 = .ok sd ∧ sd.percentage = 60 ∧
          sd.feedback = .ok ⟨3, 5, 60, ("Not bad!".data)⟩) := by
  have hq' : qs.isEmpty = false := by simpa [List.isEmpty_iff] using hq
  have ha' : ua.isEmpty = false := by simpa [List.isEmpty_iff] using ha
  have hmain : quizCheckMcqAnswers qs ua =
      .ok ⟨qs.countP (answeredCorrect ua), qs.length,
        roundTo1 ((qs.countP (answeredCorrect ua) : ℚ) / (qs.length : ℚ) * 100),
        .ok ⟨qs.countP (answeredCorrect ua), qs.length,
          (qs.countP (answeredCorrect ua) : ℚ) / (qs.length : ℚ) * 100,
          bandMessage ((qs.countP (answeredCorrect ua) : ℚ) / (qs.length : ℚ) * 100)⟩⟩ := by
    simp [quizCheckMcqAnswers, checkMcqAnswersTU, hq', ha']
  refine ⟨⟨_, hmain, rfl, rfl, rfl, rfl⟩, ?_, ?_, ?_, ?_, ?_, ?_⟩
  · intro p h
    simp [bandMessage, h]
  · intro p h1 h2
    rw [bandMessage, if_neg (by linarith), if_pos h1]
  · intro p h1 h2
    rw [bandMessage, if_neg (by linarith), if_neg (by linarith), if_pos h1]
  · intro p h1 h2
    rw [bandMessage, if_neg (by linarith), if_neg (by linarith), if_neg (by linarith),
      if_pos h1]
  · intro p h
    rw [bandMessage, if_neg (by linarith), if_neg (by linarith), if_neg (by linarith),
      if_neg (by linarith)]
  · have hcount : exQuiz5.countP (answeredCorrect exAns5) = 3 := by decide
    have hlen : exQuiz5.length = 5 := by decide
    have hne1 : exQuiz5.isEmpty = false := by decide
    have hne2 : exAns5.isEmpty = false := by decide
    have hr : roundTo1 60 = 60 := by
      rw [roundTo1, rhe]
      norm_num
    have hb : bandMessage 60 = ("Not bad!".data) := by
      rw [bandMessage]
      norm_num
    refine ⟨⟨3, 5, 60, .ok ⟨3, 5, 60, ("Not bad!".data)⟩⟩, ?_, rfl, rfl⟩
    unfold quizCheckMcqAnswers checkMcqAnswersTU
    rw [hne1, hne2]
    simp only [Bool.false_eq_true, if_false]
    rw [hcount, hlen]
    norm_num [hr, hb]

/-- Witness for C5 at the concrete five-question quiz with three correct
answers. -/
theorem answer_checker_scoring_witness :
    exQuiz5 ≠ [] ∧ exAns5 ≠ [] ∧
    ∃ sd : ScoreData, quizCheckMcqAnswers exQuiz5 exAns5 = .ok sd ∧ sd.percentage = 60 ∧
      sd.feedback = .ok ⟨3, 5, 60, ("Not bad!".data)⟩ :=
  ⟨by decide, by decide,
    (answer_checker_scoring exQuiz5 exAns5 (by decide) (by decide)).2.2.2.2.2.2⟩

/-- C6 counterexample: with the empty answer map the checker does not score
at all — `QuizService.check_mcq_answers` rejects the call up front and
`TextProcessor.check_mcq_answers` replies "No answers to check." — so no
result exists in which the unanswered questions are counted incorrect with
the full denominator. -/
theorem unanswered_counted_incorrect_cex :
    quizCheckMcqAnswers exQuiz5 [] = .error ("Please answer at least one question".data) ∧
    checkMcqAnswersTU [] exQuiz5 = .error ("No answers to check.".data) :=
  ⟨rfl, rfl⟩

/-- C6 (amended: the answer map must be non-empty, since an empty map is
rejected with an error): every question whose ordinal is absent from the
answer map counts as incorrect while remaining in the denominator — the total
is always the full question count and an unanswered question never satisfies
the correctness predicate. -/
theorem unanswered_counted_incorrect (qs : List MCQQuestion) (ua : List (Nat × Char))
    (hq : qs ≠ []) (ha : ua ≠ []) :
    ∃ sd : ScoreData,
      quizCheckMcqAnswers qs ua = .ok sd ∧
      sd.total_questions = qs.length ∧
      sd.correct_count = qs.countP (answeredCorrect ua) ∧
      ∀ q ∈ qs, lookupAns ua q.number = none → answeredCorrect ua q = false := by
  have hq' : qs.isEmpty = false := by simpa [List.isEmpty_iff] using hq
  have ha' : ua.isEmpty = false := by simpa [List.isEmpty_iff] using ha
  have hmain : quizCheckMcqAnswers qs ua =
      .ok ⟨qs.countP (answeredCorrect ua), qs.length,
        roundTo1 ((qs.countP (answeredCorrect ua) : ℚ) / (qs.length : ℚ) * 100),
        checkMcqAnswersTU ua qs⟩ := by
    simp [quizCheckMcqAnswers, hq', ha']
  refine ⟨_, hmain, rfl, rfl, ?_⟩
  intro q _ h
  simp [answeredCorrect, h]

/-- Witness for C6: five questions, one answered (correctly): the total stays
five and only the answered question is counted. -/
theorem unanswered_counted_incorrect_witness :
    ∃ sd : ScoreData, quizCheckMcqAnswers exQuiz5 [(1, 'A')] = .ok sd ∧
      sd.total_questions = 5 ∧ sd.correct_count = 1 ∧
      answeredCorrect [(1, 'A')] (exQuiz5.get ⟨1, by decide⟩) = false := by
  obtain ⟨sd, h1, h2, h3, h4⟩ :=
    unanswered_counted_incorrect exQuiz5 [(1, 'A')] (by decide) (by decide)
  refine ⟨sd, h1, by rw [h2]; decide, by rw [h3]; decide, ?_⟩
  exact h4 _ (by decide) (by decide)

/-- Shape of a successfully parsed block: the record fields are exactly the
extraction results. -/
theorem parseSingleMcqBlock_eq (n : Nat) (block : List Char) (q : MCQQuestion)
    (h : parseSingleMcqBlock n block = some q) :
    q.number = n ∧ q.question = extractQuestionText (blockLines block) ∧
    q.options = fillOptions (extractOptions (blockLines block)) ∧
    q.correct_answer = answerOrDefault (extractCorrectAnswer block (blockLines block)) := by
  simp only [parseSingleMcqBlock] at h
  split at h
  · cases h
  · injection h with h'
    subst h'
    exact ⟨rfl, rfl, rfl, rfl⟩

/-- After the fill step every option slot is populated. -/
theorem fillOptions_all (o : MCQOptions) :
    (fillOptions o).optA.isSome ∧ (fillOptions o).optB.isSome ∧
    (fillOptions o).optC.isSome ∧ (fillOptions o).optD.isSome := by
  rcases o with ⟨a, b, c, d⟩
  cases a <;> cases b <;> cases c <;> cases d <;> simp [fillOptions, optsCount]

/-- The validated correct answer is always one of the four letters. -/
theorem answerOrDefault_mem (o : Option Char) :
    answerOrDefault o = 'A' ∨ answerOrDefault o = 'B' ∨
      answerOrDefault o = 'C' ∨ answerOrDefault o = 'D' := by
  cases o with
  | none => exact Or.inl rfl
  | some c =>
    cases hb : (c = 'A' || c = 'B' || c = 'C' || c = 'D') with
    | false => simp [answerOrDefault, hb]
    | true =>
      have hc : answerOrDefault (some c) = c := by simp [answerOrDefault, hb]
      rw [hc]
      have hb' : ((c = 'A' ∨ c = 'B') ∨ c = 'C') ∨ c = 'D' := by simpa using hb
      tauto

/-- Lookup of a present letter in a fully populated option record. -/
theorem optsGet_isSome (o : MCQOptions) (c : Char)
    (hc : c = 'A' ∨ c = 'B' ∨ c = 'C' ∨ c = 'D')
    (hA : o.optA.isSome) (hB : o.optB.isSome) (hC : o.optC.isSome) (hD : o.optD.isSome) :
    (optsGet o c).isSome := by
  rcases hc with rfl | rfl | rfl | rfl <;> simp only [optsGet] <;> norm_num <;> assumption

/-- C2: every question record produced by the MCQ parser has all four option
slots A-D populated, and a correct answer that is one of those present
letters; a block with only two labelled options gets the two placeholder
texts for the missing letters. -/
theorem parsed_question_options_invariant :
    (∀ content q, q ∈ parseMcqQuestions content →
      q.options.optA.isSome ∧ q.options.optB.isSome ∧
      q.options.optC.isSome ∧ q.options.optD.isSome ∧
      (q.correct_answer = 'A' ∨ q.correct_answer = 'B' ∨
        q.correct_answer = 'C' ∨ q.correct_answer = 'D') ∧
      (optsGet q.options q.correct_answer).isSome)
    ∧ (parseSingleMcqBlock 1 (("Which?\nA) cat\nB) dog").data)).map
        (fun q => q.options) =
      some ⟨some ("cat".data), some ("dog".data),
        some ("Option C".data), some ("Option D".data)⟩ := by
  constructor
  · intro content q hq
    simp only [parseMcqQuestions, List.mem_filterMap] at hq
    obtain ⟨p, -, hp⟩ := hq
    obtain ⟨-, -, hopt, hans⟩ := parseSingleMcqBlock_eq _ _ _ hp
    obtain ⟨hA, hB, hC, hD⟩ := fillOptions_all (extractOptions (blockLines p.2))
    rw [← hopt] at hA hB hC hD
    have hmem := answerOrDefault_mem (extractCorrectAnswer p.2 (blockLines p.2))
    rw [← hans] at hmem
    exact ⟨hA, hB, hC, hD, hmem, optsGet_isSome _ _ hmem hA hB hC hD⟩
  · decide

/-- Upcasing a letter of the class `[A-Da-d]` lands in A-D. -/
theorem isOptLetter_toUpper {c : Char} (h : isOptLetter c = true) :
    c.toUpper = 'A' ∨ c.toUpper = 'B' ∨ c.toUpper = 'C' ∨ c.toUpper = 'D' := by
  simp only [isOptLetter, Bool.or_eq_true, decide_eq_true_eq] at h
  rcases h with ((((((h | h) | h) | h) | h) | h) | h) | h <;> subst h <;> decide

/-- A capture produced by the token matcher either came in through the
accumulator or is the upcase of a matched class letter. -/
theorem reMatchAt_capture :
    ∀ (toks : List RTok) (cs : List Char) (acc : Option Char) (c : Char),
      reMatchAt toks cs acc = some c →
      acc = some c ∨ ∃ d, isOptLetter d = true ∧ c = d.toUpper := by
  intro toks
  induction toks with
  | nil => exact fun cs acc c h => Or.inl h
  | cons t ts ih =>
    intro cs acc c h
    cases t with
    | lit l =>
      simp only [reMatchAt] at h
      split at h
      · exact ih _ _ _ h
      · cases h
    | wsP =>
      simp only [reMatchAt] at h
      split at h
      · cases h
      · exact ih _ _ _ h
    | wsS =>
      simp only [reMatchAt] at h
      exact ih _ _ _ h
    | letter =>
      cases cs with
      | nil => cases h
      | cons c' rest =>
        simp only [reMatchAt] at h
        cases hl : isOptLetter c' with
        | false => rw [hl] at h; cases h
        | true =>
          rw [hl] at h
          simp only [if_true] at h
          rcases ih _ _ _ h with h' | h'
          · injection h' with h''
            exact Or.inr ⟨c', hl, h''.symm⟩
          · exact Or.inr h'

/-- Any capture of the pattern search is a letter A-D. -/
theorem reSearch_mem (toks : List RTok) (cs : List Char) (c : Char)
    (h : reSearch toks cs = some c) :
    c = 'A' ∨ c = 'B' ∨ c = 'C' ∨ c = 'D' := by
  rw [reSearch, List.findSome?_eq_some_iff] at h
  obtain ⟨l1, a, l2, -, ha, -⟩ := h
  rcases reMatchAt_capture toks a none c ha with h' | ⟨d, hd, rfl⟩
  · cases h'
  · exact isOptLetter_toUpper hd

/-- Any capture of the anchored pattern search is a letter A-D. -/
theorem reSearchAnchored_mem (toks : List RTok) (cs : List Char) (c : Char)
    (h : reSearchAnchored toks cs = some c) :
    c = 'A' ∨ c = 'B' ∨ c = 'C' ∨ c = 'D' := by
  rw [reSearchAnchored, List.findSome?_eq_some_iff] at h
  obtain ⟨l1, a, l2, -, ha, -⟩ := h
  rcases reMatchAt_capture toks a none c ha with h' | ⟨d, hd, rfl⟩
  · cases h'
  · exact isOptLetter_toUpper hd

theorem strategy1_mem (block : List Char) (c : Char) (h : strategy1 block = some c) :
    c = 'A' ∨ c = 'B' ∨ c = 'C' ∨ c = 'D' := by
  rw [strategy1] at h
  rcases ho : answerPatterns.findSome? (fun p => reSearch p block) with - | c'
  · rw [ho, Option.none_orElse] at h
    exact reSearchAnchored_mem _ _ _ h
  · rw [ho, Option.some_orElse] at h
    injection h with h'
    subst h'
    rw [List.findSome?_eq_some_iff] at ho
    obtain ⟨l1, a, l2, -, ha, -⟩ := ho
    exact reSearch_mem _ _ _ ha

theorem strategy2_mem (block : List Char) (c : Char) (h : strategy2 block = some c) :
    c = 'A' ∨ c = 'B' ∨ c = 'C' ∨ c = 'D' := by
  rw [strategy2, List.findSome?_eq_some_iff] at h
  obtain ⟨l1, a, l2, hl, ha, -⟩ := h
  have hmem : a ∈ ['A', 'B', 'C', 'D'] := by
    rw [hl]
    exact List.mem_append_right _ (List.mem_cons_self _ _)
  split at ha
  · injection ha with ha'
    subst ha'
    simpa using hmem
  · cases ha

theorem strategy3_mem (lines : List (List Char)) (c : Char)
    (h : strategy3 lines = some c) :
    c = 'A' ∨ c = 'B' ∨ c = 'C' ∨ c = 'D' := by
  rw [strategy3, List.findSome?_eq_some_iff] at h
  obtain ⟨l1, a, l2, -, ha, -⟩ := h
  rw [List.findSome?_eq_some_iff] at ha
  obtain ⟨m1, b, m2, hm, hb, -⟩ := ha
  have hmem : b ∈ ['A', 'B', 'C', 'D'] := by
    rw [hm]
    exact List.mem_append_right _ (List.mem_cons_self _ _)
  split at hb
  · injection hb with hb'
    subst hb'
    simpa using hmem
  · cases hb

theorem s4scan_mem (needles : List (List Char)) (cs : List Char) (c : Char)
    (h : s4scan needles cs = some c) :
    c = 'A' ∨ c = 'B' ∨ c = 'C' ∨ c = 'D' := by
  rw [s4scan, List.findSome?_eq_some_iff] at h
  obtain ⟨l1, a, l2, -, ha, -⟩ := h
  rcases a with - | ⟨c1, a⟩
  · exact absurd ha (by simp [s4scanBody])
  rcases a with - | ⟨c2, rest⟩
  · exact absurd ha (by simp [s4scanBody])
  simp only [s4scanBody] at ha
  split at ha
  · injection ha with ha'
    subst ha'
    next hcond =>
      simp only [Bool.and_eq_true] at hcond
      exact isOptLetter_toUpper hcond.1.1
  · cases ha

theorem strategy4_mem (block : List Char) (c : Char) (h : strategy4 block = some c) :
    c = 'A' ∨ c = 'B' ∨ c = 'C' ∨ c = 'D' := by
  rw [strategy4] at h
  rcases ho : s4scan emphasisNeedles block with - | c'
  · rw [ho, Option.none_orElse] at h
    exact s4scan_mem _ _ _ h
  · rw [ho, Option.some_orElse] at h
    injection h with h'
    subst h'
    exact s4scan_mem _ _ _ ho

/-- The extracted correct answer, when present, is always a letter A-D (each
strategy upcases its capture). -/
theorem extractCorrectAnswer_mem (block : List Char) (lines : List (List Char))
    (c : Char) (h : extractCorrectAnswer block lines = some c) :
    c = 'A' ∨ c = 'B' ∨ c = 'C' ∨ c = 'D' := by
  rw [extractCorrectAnswer] at h
  rcases h1 : strategy1 block with - | c1
  · rw [h1, Option.none_orElse] at h
    rcases h2 : strategy2 block with - | c2
    · rw [h2, Option.none_orElse] at h
      rcases h3 : strategy3 lines with - | c3
      · rw [h3, Option.none_orElse] at h
        exact strategy4_mem _ _ h
      · rw [h3, Option.some_orElse] at h
        injection h with h'
        subst h'
        exact strategy3_mem _ _ h3
    · rw [h2, Option.some_orElse] at h
      injection h with h'
      subst h'
      exact strategy2_mem _ _ h2
  · rw [h1, Option.some_orElse] at h
    injection h with h'
    subst h'
    exact strategy1_mem _ _ h1

/-- A letter already in A-D passes the validation unchanged. -/
theorem answerOrDefault_of_mem {c : Char}
    (hc : c = 'A' ∨ c = 'B' ∨ c = 'C' ∨ c = 'D') :
    answerOrDefault (some c) = c := by
  rcases hc with rfl | rfl | rfl | rfl <;> decide

/-- Block with four labelled options and an explicit answer line. -/
def exAnswerC : List Char :=
  ("What is 2+2?\nA) 3\nB) 4\nC) 5\nD) 6\nCorrect Answer: C").data

/-- The question record parsed from `exAnswerC`. -/
def exAnswerCQ : MCQQuestion :=
  ⟨1, ("What is 2+2?".data),
    ⟨some ("3".data), some ("4".data), some ("5".data), some ("6".data)⟩, 'C'⟩

/-- Block with four labelled options and no answer marker of any kind. -/
def exNoMarker : List Char :=
  ("What is the capital?\nA) Paris\nB) London\nC) Rome\nD) Berlin").data

/-- C1: the correct answer of a parsed MCQ block is extracted by the four
strategies in their fixed priority order (explicit-label patterns, asterisk
markers on a letter, markers on an option line, emphasis near an option),
first success winning; when extraction fails, or would yield a letter outside
the four present option keys, the answer defaults to the letter A, and a
missing answer never drops the question (a block fails only for an empty
question text).  A block with an explicit Correct Answer C line parses to
answer C; a block with no marker parses to answer A. -/
theorem correct_answer_extraction_spec :
    (∀ n block, parseSingleMcqBlock n block = none ↔
      extractQuestionText (blockLines block) = [])
    ∧ (∀ n block q, parseSingleMcqBlock n block = some q →
        q.correct_answer = answerOrDefault (extractCorrectAnswer block (blockLines block)))
    ∧ (∀ block lines c, strategy1 block = some c →
        extractCorrectAnswer block lines = some c)
    ∧ (∀ block lines c, strategy1 block = none → strategy2 block = some c →
        extractCorrectAnswer block lines = some c)
    ∧ (∀ block lines c, strategy1 block = none → strategy2 block = none →
        strategy3 lines = some c → extractCorrectAnswer block lines = some c)
    ∧ (∀ block lines, strategy1 block = none → strategy2 block = none →
        strategy3 lines = none → extractCorrectAnswer block lines = strategy4 block)
    ∧ (∀ n block q c, parseSingleMcqBlock n block = some q →
        extractCorrectAnswer block (blockLines block) = some c → q.correct_answer = c)
    ∧ (∀ n block q, parseSingleMcqBlock n block = some q →
        extractCorrectAnswer block (blockLines block) = none → q.correct_answer = 'A')
    ∧ (parseSingleMcqBlock 1 exAnswerC).map (fun q => q.correct_answer) = some 'C'
    ∧ (parseSingleMcqBlock 1 exNoMarker).map (fun q => q.correct_answer) = some 'A' := by
  refine ⟨?_, ?_, ?_, ?_, ?_, ?_, ?_, ?_, by decide, by decide⟩
  · intro n block
    simp only [parseSingleMcqBlock]
    split
    next h =>
      simp only [List.isEmpty_iff] at h
      simp [h]
    next h =>
      simp only [List.isEmpty_iff] at h
      simp [h]
  · exact fun n block q h => (parseSingleMcqBlock_eq n block q h).2.2.2
  · intro block lines c h
    rw [extractCorrectAnswer, h, Option.some_orElse]
  · intro block lines c h1 h2
    rw [extractCorrectAnswer, h1, Option.none_orElse, h2, Option.some_orElse]
  · intro block lines c h1 h2 h3
    rw [extractCorrectAnswer, h1, Option.none_orElse, h2, Option.none_orElse, h3,
      Option.some_orElse]
  · intro block lines h1 h2 h3
    rw [extractCorrectAnswer, h1, Option.none_orElse, h2, Option.none_orElse, h3,
      Option.none_orElse]
  · intro n block q c hq hc
    have h4 := (parseSingleMcqBlock_eq _ _ _ hq).2.2.2
    rw [hc, answerOrDefault_of_mem (extractCorrectAnswer_mem _ _ _ hc)] at h4
    exact h4
  · intro n block q hq hnone
    have h4 := (parseSingleMcqBlock_eq _ _ _ hq).2.2.2
    rw [hnone] at h4
    exact h4

/-- Witness for C1: the explicit-answer block parses with answer C, obtained
through the extraction characterisation. -/
theorem correct_answer_extraction_spec_witness :
    parseSingleMcqBlock 1 exAnswerC = some exAnswerCQ ∧
    extractCorrectAnswer exAnswerC (blockLines exAnswerC) = some 'C' ∧
    exAnswerCQ.correct_answer = 'C' :=
  ⟨by decide, by decide,
    correct_answer_extraction_spec.2.2.2.2.2.2.1 1 exAnswerC exAnswerCQ 'C'
      (by decide) (by decide)⟩

/-- The weakness predicate exactly as the specification words it ("the
concatenated length is below 50 characters, OR the concatenated length is
under 200 characters AND the set of query words, after lower-casing and
stop-word removal, shares zero members with the set of context words"). -/
def specWeak (question context : List Char) : Prop :=
  context.length < 50 ∨
    (context.length < 200 ∧ ∀ w ∈ questionWords question, w ∉ pySplitWs (lcList context))

/-- The weakness predicate with the first length test taken on the stripped
context, as the code does. -/
def specWeakStripped (question context : List Char) : Prop :=
  (pyStrip context).length < 50 ∨
    (context.length < 200 ∧ ∀ w ∈ questionWords question, w ∉ pySplitWs (lcList context))

/-- A context of 210 characters whose whitespace-stripped form has only 10. -/
def ctxPadded : List Char := ("abcdefghij".data) ++ List.replicate 200 ' '

/-- C3 counterexample: the code strips the context before the 50-character
test, so this 210-character context is judged weak although the claimed
characterisation (raw length below 50, or raw length under 200 with no word
overlap) does not hold of it. -/
theorem weak_context_claim_cex :
    isContextTooWeak ("hello".data) ctxPadded = true ∧
    ¬ specWeak ("hello".data) ctxPadded := by
  constructor
  · decide
  · have hlen : ctxPadded.length = 210 := by decide
    intro h
    rcases h with h | ⟨h, -⟩
    · rw [hlen] at h
      omega
    · rw [hlen] at h
      omega

/-- C3 (amended: the 50-character test applies to the whitespace-stripped
context): the context is judged too weak exactly when the stripped length is
below 50, or the raw length is under 200 and the stop-word-filtered question
words share no member with the context words; and whenever the retrieved
context is judged weak, `chat_with_pdf` returns the canned
not-enough-information response without invoking the language model. -/
theorem weak_context_characterization (question context : List Char) :
    (isContextTooWeak question context = true ↔ specWeakStripped question context)
    ∧ (∀ (env : ChatEnv) (mode : List Char) (qc : Option (List Char))
        (results : List SearchResult),
        env.modelAvailable = true → env.pdfFound = true → env.pdfProcessed = true →
        env.searchOutcome = .ok results → results ≠ [] →
        isContextTooWeak question
          (joinSep ('\n' :: ['\n']) (results.map (fun r => r.content))) = true →
        chatWithPdf env question mode qc = (.ok ⟨cannedWeakResponse, mode, 0⟩, 0)) := by
  constructor
  · constructor
    · intro h
      by_cases h1 : (pyStrip context).length < 50
      · exact Or.inl h1
      · right
        rw [isContextTooWeak, if_neg h1] at h
        split at h
        · next h2 =>
            simp only [Bool.and_eq_true, Bool.not_eq_eq_eq_not, Bool.not_true,
              decide_eq_true_eq] at h2
            refine ⟨h2.2, ?_⟩
            intro w hw hmem
            have hany : (questionWords question).any
                (fun w => decide (w ∈ pySplitWs (lcList context))) = true :=
              List.any_eq_true.mpr ⟨w, hw, by simpa using hmem⟩
            rw [h2.1] at hany
            cases hany
        · cases h
    · intro h
      rcases h with h1 | ⟨h2, h3⟩
      · rw [isContextTooWeak, if_pos h1]
      · rw [isContextTooWeak]
        by_cases h1 : (pyStrip context).length < 50
        · rw [if_pos h1]
        · rw [if_neg h1]
          have hov : (questionWords question).any
              (fun w => decide (w ∈ pySplitWs (lcList context))) = false := by
            rw [← Bool.not_eq_true, List.any_eq_true]
            rintro ⟨w, hw, hd⟩
            exact h3 w hw (by simpa using hd)
          simp [hov, h2]
  · intro env mode qc results hma hpf hpp hs hne hweak
    have hne' : results.isEmpty = false := by simpa [List.isEmpty_iff] using hne
    rw [chatWithPdf, hma, hpf, hpp, hs]
    simp [hne', hweak]

/-- A chat environment whose search returns one very short chunk. -/
def envShortCtx : ChatEnv :=
  ⟨true, true, true, .ok [⟨("short".data), [], 1⟩],
    fun _ _ => [], fun _ _ => [], fun _ => []⟩

/-- Witness for C3: with a five-character retrieved context the reply is the
canned message and the model is invoked zero times. -/
theorem weak_context_characterization_witness :
    isContextTooWeak ("hi".data)
      (joinSep ('\n' :: ['\n'])
        (([⟨("short".data), [], 1⟩] : List SearchResult).map (fun r => r.content))) = true ∧
    chatWithPdf envShortCtx ("hi".data) ("Explain".data) none =
      (.ok ⟨cannedWeakResponse, ("Explain".data), 0⟩, 0) :=
  ⟨by decide,
    (weak_context_characterization ("hi".data) []).2 envShortCtx ("Explain".data) none
      [⟨("short".data), [], 1⟩] rfl rfl rfl rfl (by decide) (by decide)⟩

/-- Quiz content carrying a single explicit question marker. -/
def exContentQ : List Char := ("Question 1: Which?\nA) cat\nB) dog").data

/-- The question parsed from `exContentQ`. -/
def exParsedQ : MCQQuestion :=
  ⟨1, ("Which?".data),
    ⟨some ("cat".data), some ("dog".data),
      some ("Option C".data), some ("Option D".data)⟩, 'A'⟩

/-- Witness for C2: the parsed question of `exContentQ` has all four option
slots filled and a present correct-answer key. -/
theorem parsed_question_options_invariant_witness :
    exParsedQ ∈ parseMcqQuestions exContentQ ∧
    (optsGet exParsedQ.options exParsedQ.correct_answer).isSome :=
  ⟨by decide,
    (parsed_question_options_invariant.1 exContentQ exParsedQ (by decide)).2.2.2.2.2⟩

/-- Content recognised by the numbered segmentation strategy whose single
block consists only of option lines, so its per-block parse fails. -/
def exC4 : List Char := ("1. A) foo\nB) bar?").data

/-- C4 counterexample: the numbered strategy recognises one block of this
content, yet the whole parse still fails with the "no valid questions" error,
because the block has no extractable question text — so the parse does not
fail *only* when zero blocks were recognised. -/
theorem quiz_parse_failure_cex :
    splitIntoQuestionBlocks exC4 = [("A) foo\nB) bar?".data)] ∧
    parseQuizQuestionsMCQ exC4 = .error noValidMsg := by
  constructor
  · decide
  · rfl

/-- C4 (amended: parsing fails with the "no valid questions" error exactly
when either no segmentation strategy recognises a block or every recognised
block fails the per-block parse): the three segmentation strategies are tried
in priority order — explicit Question-N markers, then leading numbering, then
the blank-line heuristic — with the first non-empty result winning; on
success the unparseable blocks are dropped and at least one question is
returned. -/
theorem quiz_parse_failure_characterization (content : List Char) :
    (parseQuizQuestionsMCQ content = .error noValidMsg ↔
      ∀ p ∈ (splitIntoQuestionBlocks content).enum,
        parseSingleMcqBlock (p.1 + 1) p.2 = none)
    ∧ (∀ qs, parseQuizQuestionsMCQ content = .ok qs →
        qs = parseMcqQuestions content ∧ qs ≠ [])
    ∧ (splitByMarkers markerQ content ≠ [] →
        splitIntoQuestionBlocks content = splitByMarkers markerQ content)
    ∧ (splitByMarkers markerQ content = [] → splitByMarkers markerN content ≠ [] →
        splitIntoQuestionBlocks content = splitByMarkers markerN content)
    ∧ (splitByMarkers markerQ content = [] → splitByMarkers markerN content = [] →
        splitIntoQuestionBlocks content = splitDoubleNl content) := by
  have hiff : parseMcqQuestions content = [] ↔
      ∀ p ∈ (splitIntoQuestionBlocks content).enum,
        parseSingleMcqBlock (p.1 + 1) p.2 = none := by
    rw [parseMcqQuestions, List.filterMap_eq_nil_iff]
  refine ⟨⟨?_, ?_⟩, ?_, ?_, ?_, ?_⟩
  · intro he
    rw [← hiff]
    simp only [parseQuizQuestionsMCQ] at he
    split at he
    · next h => simpa [List.isEmpty_iff] using h
    · cases he
  · intro hall
    have h0 : parseMcqQuestions content = [] := hiff.mpr hall
    simp [parseQuizQuestionsMCQ, h0]
  · intro qs h
    simp only [parseQuizQuestionsMCQ] at h
    split at h
    · cases h
    · next hne =>
        injection h with h'
        subst h'
        exact ⟨rfl, by simpa [List.isEmpty_iff] using hne⟩
  · intro h
    have h' : (splitByMarkers markerQ content).isEmpty = false := by
      simpa [List.isEmpty_iff] using h
    simp [splitIntoQuestionBlocks, h']
  · intro h1 h2
    have h1' : (splitByMarkers markerQ content).isEmpty = true := by
      simpa [List.isEmpty_iff] using h1
    have h2' : (splitByMarkers markerN content).isEmpty = false := by
      simpa [List.isEmpty_iff] using h2
    simp [splitIntoQuestionBlocks, h1', h2']
  · intro h1 h2
    have h1' : (splitByMarkers markerQ content).isEmpty = true := by
      simpa [List.isEmpty_iff] using h1
    have h2' : (splitByMarkers markerN content).isEmpty = true := by
      simpa [List.isEmpty_iff] using h2
    simp [splitIntoQuestionBlocks, h1', h2']

/-- Witness for C4: content with an explicit marker is segmented by the first
strategy and parses to one question. -/
theorem quiz_parse_failure_characterization_witness :
    splitByMarkers markerQ exContentQ ≠ [] ∧
    splitIntoQuestionBlocks exContentQ = splitByMarkers markerQ exContentQ ∧
    parseQuizQuestionsMCQ exContentQ = .ok [exParsedQ] :=
  ⟨by decide,
    (quiz_parse_failure_characterization exContentQ).2.2.1 (by decide),
    by rfl⟩

end AiBuddy
